import Mathlib

/-!
Shallow embedding of the `wortal-sdk-cocos-3x` fragment:
`src/templates/wortal-api/WortalIAP.ts` (five forwarding functions over the
global `window.Wortal.iap` object, plus the `Product`, `PurchaseConfig`,
`Purchase` interfaces and the `Signature` type alias) and
`src/templates/wortal-api/interfaces/Player.ts` (the `ConnectedPlayerPayload`,
`WortalPlayerData` and `SignedASID` interfaces).

The embedding has three layers:
* a well-formed environment (`Window`), in which the global platform object
  and all five of its methods are present, used for the pass-through claims;
* a raw environment (`RawWindow`), in which `window.Wortal`, its `iap`
  member, or any individual method may be absent, with the JavaScript
  member-access semantics (accessing a member of `undefined`, or calling a
  missing method, throws a synchronous TypeError);
* a call-trace layer (`runOp`), which records the external invocations a
  facade call performs, read off from the function bodies in the source.

A JavaScript `Promise` is embedded as a value carrying an identity (so that
returning the external promise itself is distinguishable from wrapping it)
together with its eventual settlement (resolution value or rejection).
-/

namespace WortalSDK

/-- Error codes documented in the `@throws {ErrorMessage}` comments of
`WortalIAP.ts` (the platform-defined error classifications). -/
inductive ErrorCode where
  | NOT_SUPPORTED
  | CLIENT_UNSUPPORTED_OPERATION
  | PAYMENTS_NOT_INITIALIZED
  | INVALID_PARAM
  | NETWORK_FAILURE
  | INVALID_OPERATION
  | USER_INPUT
deriving DecidableEq, Repr

/-- An `ErrorMessage` as carried by a rejected platform promise: a
platform-defined classification plus a detail string (`error.message`). -/
structure ErrorMessage where
  code : ErrorCode
  message : String
deriving DecidableEq, Repr

/-- The eventual settlement of a promise: resolution with a value, or
rejection with a platform `ErrorMessage`. -/
inductive Settlement (α : Type) where
  | resolved : α → Settlement α
  | rejected : ErrorMessage → Settlement α
deriving DecidableEq, Repr

/-- A JavaScript promise, embedded as its object identity (`promiseId`:
two distinct promise objects, for example an external promise and a wrapper
around it, have distinct identities) together with its eventual settlement. -/
structure Promise (α : Type) where
  promiseId : Nat
  settlement : Settlement α
deriving DecidableEq, Repr

/-- The `Signature` type alias of `WortalIAP.ts`: an opaque string verified
on the game's backend server, never decoded or checked locally. -/
abbrev Signature : Type := String

/-- The `Product` interface of `WortalIAP.ts`: a product the player can
purchase. Optional interface members are embedded as `Option`. -/
structure Product where
  title : String
  productID : String
  description : Option String
  imageURI : Option String
  price : String
  priceCurrencyCode : String
deriving DecidableEq, Repr

/-- The `PurchaseConfig` interface of `WortalIAP.ts`: configuration for a
purchase (product ID plus optional developer payload). -/
structure PurchaseConfig where
  productID : String
  developerPayload : Option String
deriving DecidableEq, Repr

/-- The `Purchase` interface of `WortalIAP.ts`: a purchase transaction
record, whose `signedRequest` is an opaque `Signature`. -/
structure Purchase where
  developerPayload : Option String
  paymentID : String
  productID : String
  purchaseTime : String
  purchaseToken : String
  signedRequest : Signature
deriving DecidableEq, Repr

/-- Modelled from the spec: `interfaces/Player.ts` imports the
`ConnectedPlayerFilter` type from `../types/Player`, a module outside this
fragment; the spec does not constrain it, so it is embedded as an opaque
string-valued filter descriptor. -/
abbrev ConnectedPlayerFilter : Type := String

/-- The `ConnectedPlayerPayload` interface of `interfaces/Player.ts`:
payload options for players (all members optional). -/
structure ConnectedPlayerPayload where
  cursor : Option Nat
  filter : Option ConnectedPlayerFilter
  hoursSinceInvitation : Option Nat
  size : Option Nat

/-- The `WortalPlayerData` interface of `interfaces/Player.ts`: data about a
player (the player identity record of the spec). -/
structure WortalPlayerData where
  id : String
  name : String
  photo : String
deriving DecidableEq, Repr

/-- The `SignedASID` interface of `interfaces/Player.ts`: an app-scoped user
id together with an opaque signature string, verified only server-side. -/
structure SignedASID where
  asid : String
  signature : String
deriving DecidableEq, Repr

/-- The external in-app-purchase service `window.Wortal.iap`, in a session
where the upstream dependency contract holds: all five methods are present.
Method results are the external platform's own promises (or boolean). -/
structure WortalIAPService where
  isEnabled : Unit → Bool
  getCatalogAsync : Unit → Promise (List Product)
  getPurchasesAsync : Unit → Promise (List Purchase)
  makePurchaseAsync : PurchaseConfig → Promise Purchase
  consumePurchaseAsync : String → Promise Unit

/-- The global `Wortal` platform object, with its `iap` member present. -/
structure WortalGlobal where
  iap : WortalIAPService

/-- The browser `window` with the `Wortal` global present: a well-formed
session environment for the facade. -/
structure Window where
  Wortal : WortalGlobal

/-- `isEnabled` of `WortalIAP.ts`:
`return (window as any).Wortal.iap.isEnabled();`. -/
def isEnabled (window : Window) : Bool :=
  window.Wortal.iap.isEnabled ()

/-- `getCatalogAsync` of `WortalIAP.ts`:
`return (window as any).Wortal.iap.getCatalogAsync();`. -/
def getCatalogAsync (window : Window) : Promise (List Product) :=
  window.Wortal.iap.getCatalogAsync ()

/-- `getPurchasesAsync` of `WortalIAP.ts`:
`return (window as any).Wortal.iap.getPurchasesAsync();`. -/
def getPurchasesAsync (window : Window) : Promise (List Purchase) :=
  window.Wortal.iap.getPurchasesAsync ()

/-- `makePurchaseAsync` of `WortalIAP.ts`:
`return (window as any).Wortal.iap.makePurchaseAsync(purchase);`. -/
def makePurchaseAsync (window : Window) (purchase : PurchaseConfig) : Promise Purchase :=
  window.Wortal.iap.makePurchaseAsync purchase

/-- `consumePurchaseAsync` of `WortalIAP.ts`:
`return (window as any).Wortal.iap.consumePurchaseAsync(token);`. -/
def consumePurchaseAsync (window : Window) (token : String) : Promise Unit :=
  window.Wortal.iap.consumePurchaseAsync token

/-! ### Call-trace layer

An invocation of a facade function, the external-method invocations it
performs (each event carries the argument object passed to the external
method), and the uniform result. The event list of `runOp` transcribes the
body of the corresponding source function: each body consists of exactly one
external method call, whose argument is the caller's own argument. -/

/-- An invocation of one of the five facade functions, with its argument. -/
inductive FacadeOp where
  | isEnabledOp
  | getCatalogAsyncOp
  | getPurchasesAsyncOp
  | makePurchaseAsyncOp (purchase : PurchaseConfig)
  | consumePurchaseAsyncOp (token : String)
deriving DecidableEq, Repr

/-- An invocation of an external `window.Wortal.iap` method, carrying the
argument object that was forwarded to it. -/
inductive ExternEvent where
  | isEnabledCall
  | getCatalogAsyncCall
  | getPurchasesAsyncCall
  | makePurchaseAsyncCall (purchase : PurchaseConfig)
  | consumePurchaseAsyncCall (token : String)
deriving DecidableEq, Repr

/-- The result of a facade invocation (boolean for `isEnabled`, a promise
for each of the four asynchronous functions). -/
inductive FacadeResult where
  | boolResult (b : Bool)
  | catalogResult (p : Promise (List Product))
  | purchasesResult (p : Promise (List Purchase))
  | purchaseResult (p : Promise Purchase)
  | voidResult (p : Promise Unit)
deriving DecidableEq, Repr

/-- Executes one facade invocation against a well-formed session and records
the external invocations its body performs (read off from the source: each
body is a single `return (window as any).Wortal.iap.<method>(<argument>);`). -/
def runOp (window : Window) : FacadeOp → FacadeResult × List ExternEvent
  | .isEnabledOp =>
      (.boolResult (isEnabled window), [.isEnabledCall])
  | .getCatalogAsyncOp =>
      (.catalogResult (getCatalogAsync window), [.getCatalogAsyncCall])
  | .getPurchasesAsyncOp =>
      (.purchasesResult (getPurchasesAsync window), [.getPurchasesAsyncCall])
  | .makePurchaseAsyncOp purchase =>
      (.purchaseResult (makePurchaseAsync window purchase), [.makePurchaseAsyncCall purchase])
  | .consumePurchaseAsyncOp token =>
      (.voidResult (consumePurchaseAsync window token), [.consumePurchaseAsyncCall token])

/-- Executes a sequence of facade invocations in order against one session.
`WortalIAP.ts` declares no module-level mutable binding, so there is no local
state to thread from one invocation to the next. -/
def runOps (window : Window) (ops : List FacadeOp) : List (FacadeResult × List ExternEvent) :=
  ops.map (runOp window)

/-- The module-level mutable state declared by `WortalIAP.ts`: the file
declares no module-level variable at all, so this record has no fields. -/
structure LocalModuleState where
deriving DecidableEq, Repr

/-! ### Raw environment layer

`window.Wortal`, its `iap` member, or any individual method may be absent at
call time (the source accesses them through `(window as any)` with no guard).
Under JavaScript semantics, reading a member of `undefined` or calling a
missing (`undefined`) method throws a synchronous TypeError; the embedding
returns `SyncOutcome.thrown` in exactly those cases. -/

/-- The outcome of a synchronous JavaScript call: a normally returned value,
or a synchronously thrown TypeError (with its message). -/
inductive SyncOutcome (α : Type) where
  | thrown (msg : String)
  | value (a : α)
deriving DecidableEq, Repr

/-- The `window.Wortal.iap` object as found at call time: any of the five
methods may be absent (`undefined`). -/
structure RawIAPService where
  isEnabled : Option (Unit → Bool)
  getCatalogAsync : Option (Unit → Promise (List Product))
  getPurchasesAsync : Option (Unit → Promise (List Purchase))
  makePurchaseAsync : Option (PurchaseConfig → Promise Purchase)
  consumePurchaseAsync : Option (String → Promise Unit)

/-- The global `Wortal` object as found at call time: its `iap` member may
be absent. -/
structure RawWortalGlobal where
  iap : Option RawIAPService

/-- The browser `window` as found at call time: the `Wortal` global may be
absent. -/
structure RawWindow where
  Wortal : Option RawWortalGlobal

/-- Looks up `window.Wortal.iap` with JavaScript member-access semantics:
`Except.error` is the synchronously thrown TypeError. -/
def lookupIap (window : RawWindow) : Except String RawIAPService :=
  match window.Wortal with
  | none => .error "TypeError: Cannot read properties of undefined (reading iap)"
  | some w =>
    match w.iap with
    | none => .error "TypeError: Cannot read properties of undefined (reading method)"
    | some iap => .ok iap

/-- Calls an optionally-present method with JavaScript semantics: calling
`undefined` throws a synchronous TypeError. -/
def callMethod {α β : Type} (method : Option (α → β)) (arg : α) : SyncOutcome β :=
  match method with
  | none => .thrown "TypeError: method is not a function"
  | some f => .value (f arg)

/-- `isEnabled` evaluated against a raw call-time environment. -/
def isEnabledRaw (window : RawWindow) : SyncOutcome Bool :=
  match lookupIap window with
  | .error msg => .thrown msg
  | .ok iap => callMethod iap.isEnabled ()

/-- `getCatalogAsync` evaluated against a raw call-time environment. -/
def getCatalogAsyncRaw (window : RawWindow) : SyncOutcome (Promise (List Product)) :=
  match lookupIap window with
  | .error msg => .thrown msg
  | .ok iap => callMethod iap.getCatalogAsync ()

/-- `getPurchasesAsync` evaluated against a raw call-time environment. -/
def getPurchasesAsyncRaw (window : RawWindow) : SyncOutcome (Promise (List Purchase)) :=
  match lookupIap window with
  | .error msg => .thrown msg
  | .ok iap => callMethod iap.getPurchasesAsync ()

/-- `makePurchaseAsync` evaluated against a raw call-time environment. -/
def makePurchaseAsyncRaw (window : RawWindow) (purchase : PurchaseConfig) :
    SyncOutcome (Promise Purchase) :=
  match lookupIap window with
  | .error msg => .thrown msg
  | .ok iap => callMethod iap.makePurchaseAsync purchase

/-- `consumePurchaseAsync` evaluated against a raw call-time environment. -/
def consumePurchaseAsyncRaw (window : RawWindow) (token : String) :
    SyncOutcome (Promise Unit) :=
  match lookupIap window with
  | .error msg => .thrown msg
  | .ok iap => callMethod iap.consumePurchaseAsync token

/-- Executes one facade invocation against a raw call-time environment. -/
def runOpRaw (window : RawWindow) : FacadeOp → SyncOutcome FacadeResult
  | .isEnabledOp =>
      match isEnabledRaw window with
      | .thrown msg => .thrown msg
      | .value b => .value (.boolResult b)
  | .getCatalogAsyncOp =>
      match getCatalogAsyncRaw window with
      | .thrown msg => .thrown msg
      | .value p => .value (.catalogResult p)
  | .getPurchasesAsyncOp =>
      match getPurchasesAsyncRaw window with
      | .thrown msg => .thrown msg
      | .value p => .value (.purchasesResult p)
  | .makePurchaseAsyncOp purchase =>
      match makePurchaseAsyncRaw window purchase with
      | .thrown msg => .thrown msg
      | .value p => .value (.purchaseResult p)
  | .consumePurchaseAsyncOp token =>
      match consumePurchaseAsyncRaw window token with
      | .thrown msg => .thrown msg
      | .value p => .value (.voidResult p)

/-- Holds when the raw environment lacks what the given facade invocation
needs: the `Wortal` global, its `iap` member, or the specific method. -/
def platformBrokenFor (window : RawWindow) (op : FacadeOp) : Bool :=
  match window.Wortal with
  | none => true
  | some w =>
    match w.iap with
    | none => true
    | some iap =>
      match op with
      | .isEnabledOp => iap.isEnabled.isNone
      | .getCatalogAsyncOp => iap.getCatalogAsync.isNone
      | .getPurchasesAsyncOp => iap.getPurchasesAsync.isNone
      | .makePurchaseAsyncOp _ => iap.makePurchaseAsync.isNone
      | .consumePurchaseAsyncOp _ => iap.consumePurchaseAsync.isNone

/-! ### Export manifest

The declaration surface of the fragment, transcribed file by file from the
source, against the surface enumerated by the spec (five functions plus the
five data shapes of its section 3). -/

/-- The kind of a TypeScript export: function, interface, or type alias. -/
inductive DeclKind where
  | functionDecl
  | interfaceDecl
  | typeAliasDecl
deriving DecidableEq, Repr

/-- One exported declaration of the fragment: source file, name, kind. -/
structure ExportedDecl where
  file : String
  name : String
  kind : DeclKind
deriving DecidableEq, Repr

/-- The exported declarations of `WortalIAP.ts`, in source order. -/
def wortalIAPExports : List ExportedDecl :=
  [⟨"src/templates/wortal-api/WortalIAP.ts", "isEnabled", .functionDecl⟩,
   ⟨"src/templates/wortal-api/WortalIAP.ts", "getCatalogAsync", .functionDecl⟩,
   ⟨"src/templates/wortal-api/WortalIAP.ts", "getPurchasesAsync", .functionDecl⟩,
   ⟨"src/templates/wortal-api/WortalIAP.ts", "makePurchaseAsync", .functionDecl⟩,
   ⟨"src/templates/wortal-api/WortalIAP.ts", "consumePurchaseAsync", .functionDecl⟩,
   ⟨"src/templates/wortal-api/WortalIAP.ts", "Product", .interfaceDecl⟩,
   ⟨"src/templates/wortal-api/WortalIAP.ts", "PurchaseConfig", .interfaceDecl⟩,
   ⟨"src/templates/wortal-api/WortalIAP.ts", "Purchase", .interfaceDecl⟩,
   ⟨"src/templates/wortal-api/WortalIAP.ts", "Signature", .typeAliasDecl⟩]

/-- The exported declarations of `interfaces/Player.ts`, in source order. -/
def playerExports : List ExportedDecl :=
  [⟨"src/templates/wortal-api/interfaces/Player.ts", "ConnectedPlayerPayload", .interfaceDecl⟩,
   ⟨"src/templates/wortal-api/interfaces/Player.ts", "WortalPlayerData", .interfaceDecl⟩,
   ⟨"src/templates/wortal-api/interfaces/Player.ts", "SignedASID", .interfaceDecl⟩]

/-- Every exported declaration of the fragment. -/
def fragmentExports : List ExportedDecl :=
  wortalIAPExports ++ playerExports

/-- The names making up the surface as the spec enumerates it: the five
functions of its section 4 and the five data shapes of its section 3 (player
identity record, signed application-scoped identity, product catalog entry,
purchase configuration, purchase record). -/
def specSurfaceNames : List String :=
  ["isEnabled", "getCatalogAsync", "getPurchasesAsync",
   "makePurchaseAsync", "consumePurchaseAsync",
   "WortalPlayerData", "SignedASID", "Product", "PurchaseConfig", "Purchase"]

/-! ### Signature obliviousness

Two purchase records, settlements, or promises are signature-equivalent when
they agree on everything except the opaque `signedRequest` string. A facade
that never decodes, hashes, or compares signatures maps signature-equivalent
external responses to signature-equivalent results. -/

/-- Two purchase records agreeing on every field except `signedRequest`. -/
def purchaseSigEquiv (p q : Purchase) : Prop :=
  p.developerPayload = q.developerPayload ∧ p.paymentID = q.paymentID
  ∧ p.productID = q.productID ∧ p.purchaseTime = q.purchaseTime
  ∧ p.purchaseToken = q.purchaseToken

/-- Settlement-level lift of `purchaseSigEquiv`: equal rejections, or
signature-equivalent resolutions. -/
def settlementSigEquiv : Settlement Purchase → Settlement Purchase → Prop
  | .resolved a, .resolved b => purchaseSigEquiv a b
  | .rejected e, .rejected f => e = f
  | _, _ => False

/-- Promise-level lift of `purchaseSigEquiv`: same promise identity, and
signature-equivalent settlements. -/
def promiseSigEquiv (p q : Promise Purchase) : Prop :=
  p.promiseId = q.promiseId ∧ settlementSigEquiv p.settlement q.settlement

/-- Settlement-level lift of `purchaseSigEquiv` to purchase lists. -/
def settlementListSigEquiv : Settlement (List Purchase) → Settlement (List Purchase) → Prop
  | .resolved a, .resolved b => List.Forall₂ purchaseSigEquiv a b
  | .rejected e, .rejected f => e = f
  | _, _ => False

/-- Promise-level lift of `purchaseSigEquiv` to purchase lists. -/
def promiseListSigEquiv (p q : Promise (List Purchase)) : Prop :=
  p.promiseId = q.promiseId ∧ settlementListSigEquiv p.settlement q.settlement

/-! ### Sample environments for concrete evaluation -/

/-- A sample product record. -/
def sampleProduct : Product :=
  ⟨"Gem Pack", "p1", some "100 gems", none, "$1", "USD"⟩

/-- A sample purchase configuration, as in the spec's test of
`makePurchase(\x7bproductID: "p1"\x7d)`. -/
def sampleConfig : PurchaseConfig := ⟨"p1", none⟩

/-- A sample completed purchase record. -/
def samplePurchase : Purchase :=
  ⟨none, "pay1", "p1", "2023-01-01T00:00:00Z", "tok123", "hash.payload"⟩

/-- The sample purchase with a different opaque signature string and every
other field unchanged. -/
def samplePurchaseAltSig : Purchase :=
  { samplePurchase with signedRequest := "otherhash.payload" }

/-- A sample external service whose calls all succeed. -/
def sampleIap : WortalIAPService :=
  { isEnabled := fun _ => true
    getCatalogAsync := fun _ => ⟨1, .resolved [sampleProduct]⟩
    getPurchasesAsync := fun _ => ⟨2, .resolved [samplePurchase]⟩
    makePurchaseAsync := fun _ => ⟨3, .resolved samplePurchase⟩
    consumePurchaseAsync := fun _ => ⟨4, .resolved ()⟩ }

/-- A well-formed session around `sampleIap`. -/
def sampleWindow : Window := ⟨⟨sampleIap⟩⟩

/-- A session whose four asynchronous external calls all reject, each with a
different documented platform error classification. -/
def rejectingWindow : Window :=
  ⟨⟨{ isEnabled := fun _ => false
      getCatalogAsync := fun _ => ⟨10, .rejected ⟨.NOT_SUPPORTED, "not supported"⟩⟩
      getPurchasesAsync := fun _ => ⟨11, .rejected ⟨.PAYMENTS_NOT_INITIALIZED, "payments not initialized"⟩⟩
      makePurchaseAsync := fun _ => ⟨12, .rejected ⟨.USER_INPUT, "user cancelled"⟩⟩
      consumePurchaseAsync := fun _ => ⟨13, .rejected ⟨.INVALID_PARAM, "invalid token"⟩⟩ }⟩⟩

/-- A session whose external catalog call resolves with the empty product
list (purchases unsupported in the player's region). -/
def emptyCatalogWindow : Window :=
  ⟨⟨{ sampleIap with getCatalogAsync := fun _ => ⟨20, .resolved []⟩ }⟩⟩

/-- A session resolving purchases with the sample signature string. -/
def sigWindowA : Window :=
  ⟨⟨{ sampleIap with
      getPurchasesAsync := fun _ => ⟨30, .resolved [samplePurchase]⟩
      makePurchaseAsync := fun _ => ⟨31, .resolved samplePurchase⟩ }⟩⟩

/-- The same session as `sigWindowA` except that every returned signature
string differs. -/
def sigWindowB : Window :=
  ⟨⟨{ sampleIap with
      getPurchasesAsync := fun _ => ⟨30, .resolved [samplePurchaseAltSig]⟩
      makePurchaseAsync := fun _ => ⟨31, .resolved samplePurchaseAltSig⟩ }⟩⟩

/-- A raw call-time environment in which the `Wortal` global is absent. -/
def brokenWindow : RawWindow := ⟨none⟩

/-! ## Theorems for the claims -/

/-- C1: for every purchase configuration object, `makePurchaseAsync` forwards
that identical object to the external `makePurchaseAsync` (the one recorded
external call carries exactly the caller's object) and returns exactly the
external promise, so it resolves with exactly the external result on success
and rejects with exactly the external rejection otherwise. -/
theorem c1_makePurchaseAsync_forwards_identical (window : Window) (purchase : PurchaseConfig) :
    makePurchaseAsync window purchase = window.Wortal.iap.makePurchaseAsync purchase
    ∧ (runOp window (.makePurchaseAsyncOp purchase)).2 = [.makePurchaseAsyncCall purchase]
    ∧ (makePurchaseAsync window purchase).settlement
        = (window.Wortal.iap.makePurchaseAsync purchase).settlement :=
  ⟨rfl, rfl, rfl⟩

/-- C2: for every token string, `consumePurchaseAsync` forwards the literal
token to the external `consumePurchaseAsync` and directly returns the
externally produced promise itself (same promise identity, not a wrapper),
so its settlement is exactly the external one. -/
theorem c2_consumePurchaseAsync_returns_extern_promise (window : Window) (token : String) :
    consumePurchaseAsync window token = window.Wortal.iap.consumePurchaseAsync token
    ∧ (consumePurchaseAsync window token).promiseId
        = (window.Wortal.iap.consumePurchaseAsync token).promiseId
    ∧ (runOp window (.consumePurchaseAsyncOp token)).2 = [.consumePurchaseAsyncCall token]
    ∧ (consumePurchaseAsync window token).settlement
        = (window.Wortal.iap.consumePurchaseAsync token).settlement :=
  ⟨rfl, rfl, rfl, rfl⟩

/-- C3: for each facade operation, every rejection produced by the
corresponding external call surfaces to the caller with its platform-defined
error classification unchanged (no recovery, retry, translation, or
re-classification); `isEnabled`, the fifth operation, has no rejection and
returns the external boolean unchanged. -/
theorem c3_rejections_propagate_unchanged (window : Window) :
    (∀ e, (window.Wortal.iap.getCatalogAsync ()).settlement = .rejected e →
      (getCatalogAsync window).settlement = .rejected e)
    ∧ (∀ e, (window.Wortal.iap.getPurchasesAsync ()).settlement = .rejected e →
      (getPurchasesAsync window).settlement = .rejected e)
    ∧ (∀ purchase e, (window.Wortal.iap.makePurchaseAsync purchase).settlement = .rejected e →
      (makePurchaseAsync window purchase).settlement = .rejected e)
    ∧ (∀ token e, (window.Wortal.iap.consumePurchaseAsync token).settlement = .rejected e →
      (consumePurchaseAsync window token).settlement = .rejected e)
    ∧ isEnabled window = window.Wortal.iap.isEnabled () :=
  ⟨fun _ h => h, fun _ h => h, fun _ _ h => h, fun _ _ h => h, rfl⟩

/-- Witness for C3: in a session whose four external asynchronous calls each
reject with a distinct documented classification, each facade call rejects
with exactly that classification. -/
theorem c3_rejections_propagate_unchanged_witness :
    (getCatalogAsync rejectingWindow).settlement
        = Settlement.rejected ⟨ErrorCode.NOT_SUPPORTED, "not supported"⟩
    ∧ (getPurchasesAsync rejectingWindow).settlement
        = Settlement.rejected ⟨ErrorCode.PAYMENTS_NOT_INITIALIZED, "payments not initialized"⟩
    ∧ (makePurchaseAsync rejectingWindow sampleConfig).settlement
        = Settlement.rejected ⟨ErrorCode.USER_INPUT, "user cancelled"⟩
    ∧ (consumePurchaseAsync rejectingWindow "tok123").settlement
        = Settlement.rejected ⟨ErrorCode.INVALID_PARAM, "invalid token"⟩ :=
  ⟨(c3_rejections_propagate_unchanged rejectingWindow).1 _ rfl,
   (c3_rejections_propagate_unchanged rejectingWindow).2.1 _ rfl,
   (c3_rejections_propagate_unchanged rejectingWindow).2.2.1 sampleConfig _ rfl,
   (c3_rejections_propagate_unchanged rejectingWindow).2.2.2.1 "tok123" _ rfl⟩

/-- C4: `isEnabled` is a synchronous query returning exactly the boolean
reported by the external platform object's `isEnabled` method; its whole
effect is that single external query (no side effects, no failure path). -/
theorem c4_isEnabled_passthrough (window : Window) :
    isEnabled window = window.Wortal.iap.isEnabled ()
    ∧ runOp window .isEnabledOp
        = (.boolResult (window.Wortal.iap.isEnabled ()), [.isEnabledCall]) :=
  ⟨rfl, rfl⟩

/-- C5: `getCatalogAsync` returns exactly the external catalog promise; when
the external call resolves with the empty list (purchases unsupported
in-region) so does the facade (resolution, not rejection), and the facade
rejects with an error exactly when the external call rejects with it. -/
theorem c5_getCatalogAsync_passthrough (window : Window) :
    getCatalogAsync window = window.Wortal.iap.getCatalogAsync ()
    ∧ ((window.Wortal.iap.getCatalogAsync ()).settlement = .resolved [] →
        (getCatalogAsync window).settlement = .resolved [])
    ∧ (∀ e, (getCatalogAsync window).settlement = .rejected e ↔
        (window.Wortal.iap.getCatalogAsync ()).settlement = .rejected e) :=
  ⟨rfl, fun h => h, fun _ => Iff.rfl⟩

/-- Witness for C5: in a session whose external catalog call resolves with
the empty list, the facade resolves with the empty list. -/
theorem c5_getCatalogAsync_passthrough_witness :
    (getCatalogAsync emptyCatalogWindow).settlement = Settlement.resolved [] :=
  (c5_getCatalogAsync_passthrough emptyCatalogWindow).2.1 rfl

/-- C6: `getPurchasesAsync` returns exactly the external promise, resolving
with the externally reported unconsumed-purchase list verbatim; its single
recorded operation is the external call (no validation step of any purchase),
and it rejects exactly when the external call rejects. -/
theorem c6_getPurchasesAsync_passthrough (window : Window) :
    getPurchasesAsync window = window.Wortal.iap.getPurchasesAsync ()
    ∧ (runOp window .getPurchasesAsyncOp).2 = [.getPurchasesAsyncCall]
    ∧ (∀ l, (window.Wortal.iap.getPurchasesAsync ()).settlement = .resolved l →
        (getPurchasesAsync window).settlement = .resolved l)
    ∧ (∀ e, (getPurchasesAsync window).settlement = .rejected e ↔
        (window.Wortal.iap.getPurchasesAsync ()).settlement = .rejected e) :=
  ⟨rfl, rfl, fun _ h => h, fun _ => Iff.rfl⟩

/-- Witness for C6: in a session whose external call reports one unconsumed
purchase, the facade resolves with exactly that one-element list. -/
theorem c6_getPurchasesAsync_passthrough_witness :
    (getPurchasesAsync sigWindowA).settlement = Settlement.resolved [samplePurchase] :=
  (c6_getPurchasesAsync_passthrough sigWindowA).2.2.1 [samplePurchase] rfl

/-- C7: facade invocations are independent and stateless: in any sequence of
invocations against one session, each invocation's outcome is exactly what
that invocation produces alone; every invocation performs exactly one
external call; and the module's locally owned mutable state is empty (the
source declares no module-level state), so no call can read or write any. -/
theorem c7_stateless_single_call (window : Window) (ops : List FacadeOp)
    (i : Nat) (h : i < ops.length) :
    (runOps window ops)[i]? = some (runOp window ops[i])
    ∧ (∀ w op, ((runOp w op).2).length = 1)
    ∧ (∀ s t : LocalModuleState, s = t) := by
  refine ⟨?_, ?_, ?_⟩
  · simp [runOps, List.getElem?_map, List.getElem?_eq_getElem h]
  · intro w op
    cases op <;> rfl
  · intro s t
    cases s
    cases t
    rfl

/-- Witness for C7: in the two-call sequence against the sample session, the
second invocation's outcome equals that invocation run alone. -/
theorem c7_stateless_single_call_witness :
    (runOps sampleWindow [FacadeOp.isEnabledOp, FacadeOp.getCatalogAsyncOp])[1]?
        = some (runOp sampleWindow FacadeOp.getCatalogAsyncOp)
    ∧ ((runOp sampleWindow FacadeOp.getCatalogAsyncOp).2).length = 1 :=
  ⟨(c7_stateless_single_call sampleWindow
      [FacadeOp.isEnabledOp, FacadeOp.getCatalogAsyncOp] 1 (by decide)).1,
   (c7_stateless_single_call sampleWindow
      [FacadeOp.isEnabledOp, FacadeOp.getCatalogAsyncOp] 1 (by decide)).2.1
      sampleWindow FacadeOp.getCatalogAsyncOp⟩

/-- C8: the facade never inspects a signature string: two sessions whose
external responses differ only in their opaque `signedRequest` strings yield
signature-equivalent facade results (same behaviour otherwise), and every
resolved purchase record, its signature string included, is carried through
unchanged. -/
theorem c8_signature_oblivious (w1 w2 : Window) (purchase : PurchaseConfig) :
    (promiseSigEquiv (w1.Wortal.iap.makePurchaseAsync purchase)
        (w2.Wortal.iap.makePurchaseAsync purchase) →
      promiseSigEquiv (makePurchaseAsync w1 purchase) (makePurchaseAsync w2 purchase))
    ∧ (promiseListSigEquiv (w1.Wortal.iap.getPurchasesAsync ())
        (w2.Wortal.iap.getPurchasesAsync ()) →
      promiseListSigEquiv (getPurchasesAsync w1) (getPurchasesAsync w2))
    ∧ (∀ p, (w1.Wortal.iap.makePurchaseAsync purchase).settlement = .resolved p →
        (makePurchaseAsync w1 purchase).settlement = .resolved p) :=
  ⟨fun h => h, fun h => h, fun _ h => h⟩

/-- Witness for C8: the two sample sessions differing only in signature
strings yield signature-equivalent purchase promises from the facade. -/
theorem c8_signature_oblivious_witness :
    promiseSigEquiv (makePurchaseAsync sigWindowA sampleConfig)
        (makePurchaseAsync sigWindowB sampleConfig)
    ∧ (makePurchaseAsync sigWindowA sampleConfig).settlement
        = Settlement.resolved samplePurchase :=
  ⟨(c8_signature_oblivious sigWindowA sigWindowB sampleConfig).1
      ⟨rfl, rfl, rfl, rfl, rfl, rfl⟩,
   (c8_signature_oblivious sigWindowA sigWindowB sampleConfig).2.2
      samplePurchase rfl⟩

/-- C9 counterexample: the fragment exports the `ConnectedPlayerPayload`
interface, which is none of the ten items (five functions, five section-3
data shapes) the claim allows, so the claimed surface is not exact. -/
theorem c9_claimed_surface_refuted :
    (⟨"src/templates/wortal-api/interfaces/Player.ts", "ConnectedPlayerPayload",
        DeclKind.interfaceDecl⟩ : ExportedDecl) ∈ fragmentExports
    ∧ "ConnectedPlayerPayload" ∉ specSurfaceNames := by
  constructor
  · simp [fragmentExports, wortalIAPExports, playerExports]
  · decide

/-- C9 amended: the fragment's exported surface is the five facade functions
and the five section-3 data shapes, together with the `Signature` type alias
and the `ConnectedPlayerPayload` interface — exactly these twelve
declarations, and every spec-enumerated name is among them. -/
theorem c9_surface_exact :
    fragmentExports.map ExportedDecl.name
      = ["isEnabled", "getCatalogAsync", "getPurchasesAsync", "makePurchaseAsync",
         "consumePurchaseAsync", "Product", "PurchaseConfig", "Purchase", "Signature",
         "ConnectedPlayerPayload", "WortalPlayerData", "SignedASID"]
    ∧ ∀ n ∈ specSurfaceNames, n ∈ fragmentExports.map ExportedDecl.name := by
  constructor
  · rfl
  · decide

/-- C10: when the raw call-time environment lacks the `Wortal` global, its
`iap` member, or the method an invocation needs, that facade invocation
throws synchronously — the four promise-returning functions throw rather
than returning any promise (so no rejected promise either), and `isEnabled`
throws despite its documented lack of a failure path. -/
theorem c10_broken_platform_throws (window : RawWindow) (op : FacadeOp)
    (h : platformBrokenFor window op = true) :
    (∃ msg, runOpRaw window op = SyncOutcome.thrown msg)
    ∧ ∀ r, runOpRaw window op ≠ SyncOutcome.value r := by
  have hthrown : ∃ msg, runOpRaw window op = SyncOutcome.thrown msg := by
    obtain ⟨wortalOpt⟩ := window
    cases wortalOpt with
    | none => cases op <;> exact ⟨_, rfl⟩
    | some g =>
      obtain ⟨iapOpt⟩ := g
      cases iapOpt with
      | none => cases op <;> exact ⟨_, rfl⟩
      | some iap =>
        cases op <;>
          simp_all [platformBrokenFor, Option.isNone_iff_eq_none, runOpRaw,
            isEnabledRaw, getCatalogAsyncRaw, getPurchasesAsyncRaw,
            makePurchaseAsyncRaw, consumePurchaseAsyncRaw, lookupIap, callMethod]
  obtain ⟨msg, hmsg⟩ := hthrown
  refine ⟨⟨msg, hmsg⟩, ?_⟩
  intro r hr
  rw [hmsg] at hr
  exact SyncOutcome.noConfusion hr

/-- Witness for C10: with the `Wortal` global absent, `getCatalogAsync`
throws synchronously instead of returning a promise. -/
theorem c10_broken_platform_throws_witness :
    ∃ msg, runOpRaw brokenWindow FacadeOp.getCatalogAsyncOp = SyncOutcome.thrown msg :=
  (c10_broken_platform_throws brokenWindow FacadeOp.getCatalogAsyncOp rfl).1

end WortalSDK
